import Mathlib

/-!
A shallow embedding of the inventory management program in `InventoryApp.py`.

The program has two components:
* `Product` — a record with validated fields, built by `Product.__init__`
  and mutated in place by `update_details` and `update_quantity`, both of
  which raise `ValueError` on invalid input;
* `InventoryManager` — a facade over a `dict` mapping product ids to
  `Product` objects, with operations `add_product`, `remove_product`,
  `get_product`, `update_product_details`, `update_stock` and
  `list_all_products`, all of which catch `ValueError` and report
  success or failure as a boolean.

The embedding is state-passing: the Python dict becomes an association
list `Store` with unique keys in every reachable state; in-place object
mutation becomes replacing the value stored under the key.  Python
numbers are modelled as `ℚ` (price) and `ℤ` (quantity, delta); raising
`ValueError` becomes returning an error value.
-/

/-- The only exception class the program raises: Python `ValueError`
with its message. -/
inductive PyError where
  | valueError (msg : String)
deriving Repr, DecidableEq

/-- The `Product` entity: the five attributes set by `Product.__init__`. -/
structure Product where
  product_id : String
  name : String
  description : String
  price : ℚ
  quantity : ℤ
deriving Repr, DecidableEq

/-- `Product.__init__`: validates in order — empty id, empty name,
non-positive price, negative quantity — raising `ValueError` at the first
failing check, otherwise produces the product with the given fields.
(Python `if not s` on a string tests emptiness.) -/
def construct (product_id name description : String) (price : ℚ) (quantity : ℤ) :
    Except PyError Product :=
  if product_id = "" then
    Except.error (PyError.valueError "Product ID cannot be empty.")
  else if name = "" then
    Except.error (PyError.valueError "Product name cannot be empty.")
  else if price ≤ 0 then
    Except.error (PyError.valueError "Price must be positive.")
  else if quantity < 0 then
    Except.error (PyError.valueError "Quantity cannot be negative.")
  else
    Except.ok ⟨product_id, name, description, price, quantity⟩

/-- The price step of `Product.update_details`: if a price is provided,
validate it and assign it. -/
def update_details_price (p : Product) (price : Option ℚ) :
    Product × Option PyError :=
  match price with
  | some pr =>
      if pr ≤ 0 then (p, some (PyError.valueError "Price must be positive."))
      else ({ p with price := pr }, none)
  | none => (p, none)

/-- The description step of `Product.update_details`: a provided
description is assigned unconditionally, then the price step runs. -/
def update_details_desc (p : Product) (description : Option String)
    (price : Option ℚ) : Product × Option PyError :=
  match description with
  | some d => update_details_price { p with description := d } price
  | none => update_details_price p price

/-- `Product.update_details`: validates and assigns each provided field in
sequence (name, then description, then price).  Because the Python method
mutates `self` field by field, a `ValueError` raised at a later field
leaves the earlier assignments in place: the first component is the state
of the object when the call returns or raises, the second the raised
error, if any. -/
def update_details (p : Product) (name description : Option String)
    (price : Option ℚ) : Product × Option PyError :=
  match name with
  | some n =>
      if n = "" then (p, some (PyError.valueError "Product name cannot be empty."))
      else update_details_desc { p with name := n } description price
  | none => update_details_desc p description price

/-- `Product.update_quantity`: computes `new_quantity = quantity + change`;
raises `ValueError` (leaving the object untouched) when it is negative,
otherwise commits it. -/
def update_quantity (p : Product) (quantity_change : ℤ) : Except PyError Product :=
  let new_quantity := p.quantity + quantity_change
  if new_quantity < 0 then
    Except.error (PyError.valueError
      ("Cannot stock out " ++ toString quantity_change.natAbs ++
       " items. Only " ++ toString p.quantity ++ " items available for " ++
       p.name ++ "."))
  else
    Except.ok { p with quantity := new_quantity }

/-- The `InventoryManager` store `self._products`: a Python dict from id
to `Product`, modelled as an association list (dicts preserve insertion
order; reachable stores have unique keys, enforced by `add_product`). -/
abbrev Store := List (String × Product)

/-- Dict lookup `self._products.get(product_id)`: the value under the
first matching key. -/
def lookupStore : Store → String → Option Product
  | [], _ => none
  | (k, p) :: rest, id => if k = id then some p else lookupStore rest id

/-- In-place mutation of the object stored under `id`: every entry whose
key is `id` now holds `p` (on a unique-key store, the one entry). -/
def setStore (s : Store) (id : String) (p : Product) : Store :=
  s.map (fun kp => if kp.1 = id then (kp.1, p) else kp)

/-- Python `del self._products[product_id]`: the key is removed. -/
def eraseStore (s : Store) (id : String) : Store :=
  s.filter (fun kp => kp.1 ≠ id)

/-- `InventoryManager.add_product`: fails when the id is already a key,
otherwise inserts the product at the end (dict insertion order). -/
def add_product (s : Store) (p : Product) : Bool × Store :=
  if (lookupStore s p.product_id).isSome then (false, s)
  else (true, s ++ [(p.product_id, p)])

/-- `InventoryManager.remove_product`: fails when the id is absent,
otherwise deletes the entry. -/
def remove_product (s : Store) (id : String) : Bool × Store :=
  if (lookupStore s id).isSome then (true, eraseStore s id)
  else (false, s)

/-- `InventoryManager.get_product`: `dict.get`, returning `None` when
absent (a `Product` object is always truthy, so the `if not product`
test in the source is exactly the `None` test). -/
def get_product (s : Store) (id : String) : Option Product :=
  lookupStore s id

/-- `InventoryManager.update_product_details`: looks the product up,
returns `False` when absent; otherwise runs `Product.update_details`
inside `try`/`except ValueError`.  The object is mutated in place, so
even when the update raises, the (partially updated) object is what the
store now holds. -/
def update_product_details (s : Store) (id : String)
    (name description : Option String) (price : Option ℚ) : Bool × Store :=
  match get_product s id with
  | none => (false, s)
  | some p =>
      match update_details p name description price with
      | (p', none) => (true, setStore s id p')
      | (p', some _) => (false, setStore s id p')

/-- `InventoryManager.update_stock`: looks the product up, returns
`False` when absent; otherwise runs `Product.update_quantity` inside
`try`/`except ValueError`.  `update_quantity` raises before assigning,
so on failure the store is unchanged. -/
def update_stock (s : Store) (id : String) (quantity_change : ℤ) : Bool × Store :=
  match get_product s id with
  | none => (false, s)
  | some p =>
      match update_quantity p quantity_change with
      | Except.ok p' => (true, setStore s id p')
      | Except.error _ => (false, s)

/-- `InventoryManager.list_all_products`: iterates over the dict printing
each product's summary fields (id, name, price, quantity) and does not
assign to the dict or any object; the emitted entries are returned
together with the store the method leaves behind. -/
def list_all_products (s : Store) : List (String × String × ℚ × ℤ) × Store :=
  (s.map (fun kp => (kp.2.product_id, kp.2.name, kp.2.price, kp.2.quantity)), s)

/-!
Exception-transparent versions of the store operations, for the claim
that no exception escapes the `InventoryManager` boundary.  Each returns
`Except (PyError × Store) _`: an `Except.error` value is an exception
escaping the method, paired with the store at the moment of the raise; an
`Except.ok` value is a normal return.  The `try`/`except ValueError`
blocks of the source appear as the `match` that turns a raised
`ValueError` back into a `False` return.
-/

/-- `add_product` at the exception boundary: none of its statements can
raise. -/
def add_productE (s : Store) (p : Product) : Except (PyError × Store) (Bool × Store) :=
  Except.ok (add_product s p)

/-- `remove_product` at the exception boundary: none of its statements
can raise. -/
def remove_productE (s : Store) (id : String) : Except (PyError × Store) (Bool × Store) :=
  Except.ok (remove_product s id)

/-- `get_product` at the exception boundary: `dict.get` cannot raise. -/
def get_productE (s : Store) (id : String) : Except (PyError × Store) (Option Product × Store) :=
  Except.ok (get_product s id, s)

/-- `update_product_details` at the exception boundary: the `try` block
calls `Product.update_details`, whose raise escapes with the store
already holding the partially mutated object; `except ValueError`
converts it to a `False` return. -/
def update_product_detailsE (s : Store) (id : String)
    (name description : Option String) (price : Option ℚ) :
    Except (PyError × Store) (Bool × Store) :=
  match get_product s id with
  | none => Except.ok (false, s)
  | some p =>
      let attempt : Except (PyError × Store) (Bool × Store) :=
        match update_details p name description price with
        | (p', none) => Except.ok (true, setStore s id p')
        | (p', some e) => Except.error (e, setStore s id p')
      match attempt with
      | Except.ok r => Except.ok r
      | Except.error (PyError.valueError _, s') => Except.ok (false, s')

/-- `update_stock` at the exception boundary: the `try` block calls
`Product.update_quantity`, which raises before mutating, so the escaping
exception carries the unchanged store; `except ValueError` converts it to
a `False` return. -/
def update_stockE (s : Store) (id : String) (quantity_change : ℤ) :
    Except (PyError × Store) (Bool × Store) :=
  match get_product s id with
  | none => Except.ok (false, s)
  | some p =>
      let attempt : Except (PyError × Store) (Bool × Store) :=
        match update_quantity p quantity_change with
        | Except.ok p' => Except.ok (true, setStore s id p')
        | Except.error e => Except.error (e, s)
      match attempt with
      | Except.ok r => Except.ok r
      | Except.error (PyError.valueError _, s') => Except.ok (false, s')

/-- `list_all_products` at the exception boundary: printing cannot
raise. -/
def list_all_productsE (s : Store) :
    Except (PyError × Store) (List (String × String × ℚ × ℤ) × Store) :=
  Except.ok (list_all_products s)

/-!
Reachable store states.  The CLI drives the store through the five
`InventoryManager` operations; products enter the store only through
successful `Product.__init__` calls (`construct`).
-/

/-- One store operation, as invokable from outside: an add carries the
raw construction arguments, and only a successful `construct` reaches
`add_product`. -/
inductive Op where
  | add (id name description : String) (price : ℚ) (qty : ℤ)
  | remove (id : String)
  | get (id : String)
  | updDetails (id : String) (name description : Option String) (price : Option ℚ)
  | updStock (id : String) (delta : ℤ)
deriving Repr

/-- The store after one operation (results and output are discarded; a
failed `construct` adds nothing). -/
def step (s : Store) (op : Op) : Store :=
  match op with
  | Op.add id n d pr q =>
      match construct id n d pr q with
      | Except.ok p => (add_product s p).2
      | Except.error _ => s
  | Op.remove id => (remove_product s id).2
  | Op.get _ => s
  | Op.updDetails id n d pr => (update_product_details s id n d pr).2
  | Op.updStock id delta => (update_stock s id delta).2

/-- The store reached by a sequence of operations from the empty store. -/
def run (ops : List Op) : Store :=
  ops.foldl step []

/-- The per-product invariant of the specification: non-empty id,
non-empty name, positive price, non-negative quantity. -/
def productInv (p : Product) : Prop :=
  p.product_id ≠ "" ∧ p.name ≠ "" ∧ 0 < p.price ∧ 0 ≤ p.quantity

instance (p : Product) : Decidable (productInv p) := by
  unfold productInv
  infer_instance

/-- The store invariant: every stored product satisfies `productInv`. -/
def storeInv (s : Store) : Prop :=
  ∀ kp ∈ s, productInv kp.2

instance (s : Store) : Decidable (storeInv s) :=
  List.decidableBAll _ s

/-! Helper lemmas about the store primitives. -/

theorem lookupStore_isSome_mem {s : Store} {id : String} {p : Product}
    (h : lookupStore s id = some p) : (id, p) ∈ s := by
  induction s with
  | nil => simp [lookupStore] at h
  | cons kp rest ih =>
      obtain ⟨k, q⟩ := kp
      rw [lookupStore] at h
      split at h
      · rename_i hk
        cases h
        subst hk
        exact List.mem_cons_self _ _
      · exact List.mem_cons_of_mem _ (ih h)

theorem lookupStore_setStore_self {s : Store} {id : String} (p : Product)
    (h : (lookupStore s id).isSome) : lookupStore (setStore s id p) id = some p := by
  induction s with
  | nil => simp [lookupStore] at h
  | cons kp rest ih =>
      obtain ⟨k, q⟩ := kp
      by_cases hk : k = id
      · subst hk
        have hset : setStore ((k, q) :: rest) k p = (k, p) :: setStore rest k p := by
          simp [setStore]
        rw [hset, lookupStore, if_pos rfl]
      · rw [lookupStore, if_neg hk] at h
        have hset : setStore ((k, q) :: rest) id p = (k, q) :: setStore rest id p := by
          simp [setStore, hk]
        rw [hset, lookupStore, if_neg hk]
        exact ih h

theorem lookupStore_eraseStore_self (s : Store) (id : String) :
    lookupStore (eraseStore s id) id = none := by
  induction s with
  | nil => rfl
  | cons kp rest ih =>
      obtain ⟨k, q⟩ := kp
      by_cases hk : k = id
      · simpa [eraseStore, hk] using ih
      · simpa [eraseStore, lookupStore, hk] using ih

theorem lookupStore_append_self {s : Store} {id : String}
    (h : lookupStore s id = none) (p : Product) :
    lookupStore (s ++ [(id, p)]) id = some p := by
  induction s with
  | nil => simp [lookupStore]
  | cons kp rest ih =>
      obtain ⟨k, q⟩ := kp
      by_cases hk : k = id
      · rw [lookupStore, if_pos hk] at h
        cases h
      · rw [lookupStore, if_neg hk] at h
        simpa [lookupStore, hk] using ih h

theorem storeInv_setStore {s : Store} {p : Product} (hs : storeInv s)
    (hp : productInv p) (id : String) : storeInv (setStore s id p) := by
  intro kp hkp
  rcases List.mem_map.mp hkp with ⟨kq, hkq, hmap⟩
  by_cases hk : kq.1 = id
  · rw [if_pos hk] at hmap
    cases hmap
    exact hp
  · rw [if_neg hk] at hmap
    subst hmap
    exact hs kq hkq

theorem storeInv_eraseStore {s : Store} (hs : storeInv s) (id : String) :
    storeInv (eraseStore s id) := by
  intro kp hkp
  exact hs kp (List.mem_of_mem_filter hkp)

theorem storeInv_append {s : Store} {p : Product} (hs : storeInv s)
    (hp : productInv p) (id : String) : storeInv (s ++ [(id, p)]) := by
  intro kp hkp
  rcases List.mem_append.mp hkp with hkp | hkp
  · exact hs kp hkp
  · rcases List.mem_singleton.mp hkp with rfl
    exact hp

/-! The product operations preserve the per-product invariant. -/

theorem construct_productInv {id n d : String} {pr : ℚ} {q : ℤ} {p : Product}
    (h : construct id n d pr q = Except.ok p) : productInv p := by
  unfold construct at h
  split at h
  · cases h
  split at h
  · cases h
  split at h
  · cases h
  split at h
  · cases h
  cases h
  rename_i h1 h2 h3 h4
  exact ⟨h1, h2, lt_of_not_le h3, le_of_not_lt h4⟩

theorem update_details_price_productInv {p : Product} (pr : Option ℚ)
    (hp : productInv p) : productInv (update_details_price p pr).1 := by
  match pr with
  | none => exact hp
  | some x =>
      by_cases hx : x ≤ 0
      · simpa [update_details_price, hx] using hp
      · have hres : update_details_price p (some x) = ({ p with price := x }, none) := by
          simp [update_details_price, hx]
        rw [hres]
        exact ⟨hp.1, hp.2.1, lt_of_not_le hx, hp.2.2.2⟩

theorem update_details_desc_productInv {p : Product} (d : Option String)
    (pr : Option ℚ) (hp : productInv p) :
    productInv (update_details_desc p d pr).1 := by
  match d with
  | none => exact update_details_price_productInv pr hp
  | some x =>
      exact update_details_price_productInv pr ⟨hp.1, hp.2.1, hp.2.2.1, hp.2.2.2⟩

theorem update_details_productInv {p : Product} (n d : Option String)
    (pr : Option ℚ) (hp : productInv p) :
    productInv (update_details p n d pr).1 := by
  match n with
  | none => exact update_details_desc_productInv d pr hp
  | some x =>
      by_cases hx : x = ""
      · simpa [update_details, hx] using hp
      · have hres : update_details p (some x) d pr =
            update_details_desc { p with name := x } d pr := by
          simp [update_details, hx]
        rw [hres]
        exact update_details_desc_productInv d pr ⟨hp.1, hx, hp.2.2.1, hp.2.2.2⟩

theorem update_quantity_productInv {p p' : Product} {delta : ℤ}
    (h : update_quantity p delta = Except.ok p') (hp : productInv p) :
    productInv p' := by
  simp only [update_quantity] at h
  split at h
  · cases h
  · cases h
    rename_i hneg
    exact ⟨hp.1, hp.2.1, hp.2.2.1, le_of_not_lt hneg⟩

/-! Every store operation preserves the store invariant. -/

theorem step_storeInv {s : Store} (op : Op) (hs : storeInv s) :
    storeInv (step s op) := by
  match op with
  | Op.add id n d pr q =>
      simp only [step]
      cases hc : construct id n d pr q with
      | error e => exact hs
      | ok p =>
          by_cases hmem : (lookupStore s p.product_id).isSome
          · simpa [add_product, hmem] using hs
          · simpa [add_product, hmem] using
              storeInv_append hs (construct_productInv hc) p.product_id
  | Op.remove id =>
      by_cases hmem : (lookupStore s id).isSome
      · simpa [step, remove_product, hmem] using storeInv_eraseStore hs id
      · simpa [step, remove_product, hmem] using hs
  | Op.get id => exact hs
  | Op.updDetails id n d pr =>
      cases hg : get_product s id with
      | none => simpa [step, update_product_details, hg] using hs
      | some p =>
          have hg' : lookupStore s id = some p := hg
          have hp : productInv p := hs (id, p) (lookupStore_isSome_mem hg')
          rcases hu : update_details p n d pr with ⟨p', err⟩
          have hp' : productInv p' := by
            have hinv := update_details_productInv n d pr hp
            rwa [hu] at hinv
          cases err with
          | none =>
              simpa [step, update_product_details, hg, hu] using
                storeInv_setStore hs hp' id
          | some e =>
              simpa [step, update_product_details, hg, hu] using
                storeInv_setStore hs hp' id
  | Op.updStock id delta =>
      cases hg : get_product s id with
      | none => simpa [step, update_stock, hg] using hs
      | some p =>
          have hg' : lookupStore s id = some p := hg
          have hp : productInv p := hs (id, p) (lookupStore_isSome_mem hg')
          cases hu : update_quantity p delta with
          | error e => simpa [step, update_stock, hg, hu] using hs
          | ok p' =>
              simpa [step, update_stock, hg, hu] using
                storeInv_setStore hs (update_quantity_productInv hu hp) id

theorem run_storeInv (ops : List Op) : storeInv (run ops) := by
  have main : ∀ (l : List Op) (s : Store), storeInv s → storeInv (l.foldl step s) := by
    intro l
    induction l with
    | nil => intro s hs; exact hs
    | cons op rest ih =>
        intro s hs
        exact ih _ (step_storeInv op hs)
  exact main ops [] (fun kp hkp => absurd hkp (List.not_mem_nil kp))

/-- When the new quantity would be negative, `update_quantity` raises the
insufficient-stock `ValueError`. -/
theorem update_quantity_neg {p : Product} {delta : ℤ}
    (hneg : p.quantity + delta < 0) :
    update_quantity p delta = Except.error (PyError.valueError
      ("Cannot stock out " ++ toString delta.natAbs ++ " items. Only " ++
       toString p.quantity ++ " items available for " ++ p.name ++ ".")) := by
  simp [update_quantity, hneg]

/-- When the new quantity is non-negative, `update_quantity` commits it. -/
theorem update_quantity_nonneg {p : Product} {delta : ℤ}
    (hpos : 0 ≤ p.quantity + delta) :
    update_quantity p delta = Except.ok { p with quantity := p.quantity + delta } := by
  simp [update_quantity, not_lt.mpr hpos]

/-- A concrete product used to instantiate the general theorems. -/
def pX : Product := ⟨"LPT001", "Laptop X1", "High-performance laptop", 1201, 10⟩

/-- A second concrete product sharing `pX`'s id. -/
def pY : Product := ⟨"LPT001", "Laptop X2", "Another laptop", 900, 4⟩

/-- Claim C1: every reachable store state — any sequence of the five
`InventoryManager` operations from the empty store, with products
entering only through successful `construct` calls — satisfies the data
invariant: every stored product has a non-empty id, a non-empty name, a
positive price and a non-negative quantity; and every single operation
preserves the invariant. -/
theorem claim_C1_invariant :
    (∀ (s : Store) (op : Op), storeInv s → storeInv (step s op)) ∧
    (∀ ops : List Op, storeInv (run ops)) :=
  ⟨fun _ op hs => step_storeInv op hs, run_storeInv⟩

/-- Concrete instance of C1: the invariant holds after a stock update on
a one-product store. -/
theorem claim_C1_invariant_witness :
    storeInv (step [("LPT001", pX)] (Op.updStock "LPT001" 2)) :=
  claim_C1_invariant.1 [("LPT001", pX)] (Op.updStock "LPT001" 2) (by decide)

/-- Claim C2: `construct` succeeds exactly on valid input — non-empty
id, non-empty name, positive price, non-negative quantity — and then
the five fields of the product equal the inputs; on any invalid input
(empty id, empty name, non-positive price or negative quantity, each
independently sufficient) it fails with a `ValueError`. -/
theorem claim_C2_construct (id n d : String) (pr : ℚ) (q : ℤ) :
    ((id ≠ "" ∧ n ≠ "" ∧ 0 < pr ∧ 0 ≤ q) →
        construct id n d pr q = Except.ok ⟨id, n, d, pr, q⟩) ∧
    ((id = "" ∨ n = "" ∨ pr ≤ 0 ∨ q < 0) →
        ∃ msg, construct id n d pr q = Except.error (PyError.valueError msg)) := by
  constructor
  · rintro ⟨h1, h2, h3, h4⟩
    simp [construct, h1, h2, not_le.mpr h3, not_lt.mpr h4]
  · intro h
    unfold construct
    split
    · exact ⟨_, rfl⟩
    split
    · exact ⟨_, rfl⟩
    split
    · exact ⟨_, rfl⟩
    split
    · exact ⟨_, rfl⟩
    rename_i h1 h2 h3 h4
    rcases h with h | h | h | h
    · exact absurd h h1
    · exact absurd h h2
    · exact absurd h h3
    · exact absurd h h4

/-- Concrete instance of C2: a valid construction succeeds with the
given fields. -/
theorem claim_C2_construct_witness :
    construct "LPT001" "Laptop X1" "High-performance laptop" 1201 10 =
      Except.ok ⟨"LPT001", "Laptop X1", "High-performance laptop", 1201, 10⟩ :=
  (claim_C2_construct "LPT001" "Laptop X1" "High-performance laptop" 1201 10).1
    ⟨by decide, by decide, by decide, by decide⟩

/-- Claim C3: `update_quantity` computes `quantity + delta`; when the
result is negative it raises the insufficient-stock error and the
manager leaves the store unchanged, returning failure; otherwise it
commits the new quantity; and for a present id with non-negative stored
quantity, `update_stock` with positive delta always succeeds and the
stored quantity increases by exactly delta. -/
theorem claim_C3_update_quantity (p : Product) (delta : ℤ) (s : Store) (id : String) :
    (p.quantity + delta < 0 →
        ∃ msg, update_quantity p delta = Except.error (PyError.valueError msg)) ∧
    (0 ≤ p.quantity + delta →
        update_quantity p delta = Except.ok { p with quantity := p.quantity + delta }) ∧
    (get_product s id = some p → p.quantity + delta < 0 →
        update_stock s id delta = (false, s)) ∧
    (get_product s id = some p → 0 < delta → 0 ≤ p.quantity →
        (update_stock s id delta).1 = true ∧
        get_product (update_stock s id delta).2 id =
          some { p with quantity := p.quantity + delta }) := by
  refine ⟨?_, ?_, ?_, ?_⟩
  · intro hneg
    exact ⟨_, update_quantity_neg hneg⟩
  · intro hpos
    exact update_quantity_nonneg hpos
  · intro hg hneg
    simp [update_stock, hg, update_quantity_neg hneg]
  · intro hg hd hq
    have hnn : 0 ≤ p.quantity + delta := by linarith
    have hsome : (lookupStore s id).isSome := by
      rw [show lookupStore s id = some p from hg]; rfl
    have hst : update_stock s id delta =
        (true, setStore s id { p with quantity := p.quantity + delta }) := by
      simp [update_stock, hg, update_quantity_nonneg hnn]
    rw [hst]
    exact ⟨rfl, lookupStore_setStore_self _ hsome⟩

/-- Concrete instance of C3: stocking in 5 units of a 10-unit product
succeeds and the stored quantity becomes 15. -/
theorem claim_C3_update_quantity_witness :
    (update_stock [("LPT001", pX)] "LPT001" 5).1 = true ∧
    get_product (update_stock [("LPT001", pX)] "LPT001" 5).2 "LPT001" =
      some { pX with quantity := pX.quantity + 5 } :=
  (claim_C3_update_quantity pX 5 [("LPT001", pX)] "LPT001").2.2.2
    (by decide) (by decide) (by decide)

/-- Claim C4: `add_product` never overwrites: when the product's id is
already a key it returns `false` and leaves the store exactly
unchanged; and after a successful add, a second add of a product with
the same id fails, leaves the store unchanged, and the first product is
still stored with all its fields. -/
theorem claim_C4_add_product (s : Store) (p q : Product)
    (hq : q.product_id = p.product_id) :
    ((lookupStore s p.product_id).isSome → add_product s p = (false, s)) ∧
    ((add_product s p).1 = true →
        add_product (add_product s p).2 q = (false, (add_product s p).2) ∧
        get_product (add_product s p).2 p.product_id = some p) := by
  constructor
  · intro hmem
    simp [add_product, hmem]
  · intro hsucc
    by_cases hmem : (lookupStore s p.product_id).isSome
    · simp [add_product, hmem] at hsucc
    · have hnone : lookupStore s p.product_id = none :=
        Option.not_isSome_iff_eq_none.mp hmem
      have hadd : add_product s p = (true, s ++ [(p.product_id, p)]) := by
        simp [add_product, hmem]
      rw [hadd]
      have hlook : lookupStore (s ++ [(p.product_id, p)]) p.product_id = some p :=
        lookupStore_append_self hnone p
      refine ⟨?_, hlook⟩
      have hmem2 : (lookupStore (s ++ [(p.product_id, p)]) q.product_id).isSome := by
        rw [hq, hlook]; rfl
      simp [add_product, hmem2]

/-- Concrete instance of C4: adding `pX` to the empty store succeeds;
adding `pY` (same id) then fails and `pX` is still stored. -/
theorem claim_C4_add_product_witness :
    add_product (add_product [] pX).2 pY = (false, (add_product [] pX).2) ∧
    get_product (add_product [] pX).2 pX.product_id = some pX :=
  (claim_C4_add_product [] pX pY (by decide)).2 (by decide)

/-- Claim C5: `remove_product` on an absent id returns `false` and
leaves the store exactly unchanged; on a present id it returns `true`
and deletes the entry, so that a subsequent `get_product` on the
resulting store returns `none`. -/
theorem claim_C5_remove_product (s : Store) (id : String) :
    (lookupStore s id = none → remove_product s id = (false, s)) ∧
    ((lookupStore s id).isSome →
        (remove_product s id).1 = true ∧
        get_product (remove_product s id).2 id = none) := by
  constructor
  · intro hnone
    have hmem : ¬ (lookupStore s id).isSome = true := by simp [hnone]
    simp [remove_product, hmem]
  · intro hmem
    have hrm : remove_product s id = (true, eraseStore s id) := by
      simp [remove_product, hmem]
    rw [hrm]
    exact ⟨rfl, lookupStore_eraseStore_self s id⟩

/-- Concrete instance of C5: removing `pX`'s id from a one-product
store succeeds and the id then looks up absent. -/
theorem claim_C5_remove_product_witness :
    (remove_product [("LPT001", pX)] "LPT001").1 = true ∧
    get_product (remove_product [("LPT001", pX)] "LPT001").2 "LPT001" = none :=
  (claim_C5_remove_product [("LPT001", pX)] "LPT001").2 (by decide)

/-- Claim C6: the detail update is not atomic: with a provided non-empty
name and a provided non-positive price, `update_details` raises the
price `ValueError` but has already assigned the name; at the manager
level the call reports failure while the stored product's name is the
new one (price, description and quantity unchanged). -/
theorem claim_C6_update_details_not_atomic (p : Product) (n : String) (pr : ℚ)
    (s : Store) (id : String) (hn : n ≠ "") (hpr : pr ≤ 0) :
    update_details p (some n) none (some pr) =
      ({ p with name := n }, some (PyError.valueError "Price must be positive.")) ∧
    (get_product s id = some p →
        (update_product_details s id (some n) none (some pr)).1 = false ∧
        get_product (update_product_details s id (some n) none (some pr)).2 id =
          some { p with name := n }) := by
  have hupd : update_details p (some n) none (some pr) =
      ({ p with name := n }, some (PyError.valueError "Price must be positive.")) := by
    simp [update_details, update_details_desc, update_details_price, hn, hpr]
  refine ⟨hupd, ?_⟩
  intro hg
  have hsome : (lookupStore s id).isSome := by
    rw [show lookupStore s id = some p from hg]; rfl
  have hres : update_product_details s id (some n) none (some pr) =
      (false, setStore s id { p with name := n }) := by
    simp [update_product_details, hg, hupd]
  rw [hres]
  exact ⟨rfl, lookupStore_setStore_self _ hsome⟩

/-- Concrete instance of C6: updating `pX` with name "Laptop Pro" and
price `0` fails, yet the stored name is already "Laptop Pro". -/
theorem claim_C6_update_details_not_atomic_witness :
    (update_product_details [("LPT001", pX)] "LPT001" (some "Laptop Pro") none (some 0)).1
      = false ∧
    get_product
      (update_product_details [("LPT001", pX)] "LPT001" (some "Laptop Pro") none (some 0)).2
      "LPT001" = some { pX with name := "Laptop Pro" } :=
  (claim_C6_update_details_not_atomic pX "Laptop Pro" 0 [("LPT001", pX)] "LPT001"
    (by decide) (by decide)).2 (by decide)

/-- Counterexample to claim C7 as stated: on a present id, a stock
update with the non-positive amount `0` returns success (`true`), not
an `InvalidArgument` failure. -/
theorem claim_C7_counterexample :
    update_stock [("LPT001", pX)] "LPT001" 0 = (true, [("LPT001", pX)]) := by
  decide

/-- Claim C7 amended: `update_stock` itself accepts a zero amount: on a
present id with non-negative stored quantity, `update_stock(id, 0)`
succeeds (returns `true`) and leaves the stored product unchanged; the
rejection of non-positive amounts is performed only by the CLI
stock-in/stock-out handlers before calling `update_stock`, not inside
`InventoryManager`. -/
theorem claim_C7_update_stock_zero (s : Store) (id : String) (p : Product)
    (h : get_product s id = some p) (hq : 0 ≤ p.quantity) :
    (update_stock s id 0).1 = true ∧
    get_product (update_stock s id 0).2 id = some p := by
  have hok : update_quantity p 0 = Except.ok p := by
    have h0 : 0 ≤ p.quantity + 0 := by simpa using hq
    have := update_quantity_nonneg h0
    simpa using this
  have hsome : (lookupStore s id).isSome := by
    rw [show lookupStore s id = some p from h]; rfl
  have hst : update_stock s id 0 = (true, setStore s id p) := by
    simp [update_stock, h, hok]
  rw [hst]
  exact ⟨rfl, lookupStore_setStore_self _ hsome⟩

/-- Concrete instance of the amended C7: a zero-amount update on `pX`
succeeds and the stored product is unchanged. -/
theorem claim_C7_update_stock_zero_witness :
    (update_stock [("LPT001", pX)] "LPT001" 0).1 = true ∧
    get_product (update_stock [("LPT001", pX)] "LPT001" 0).2 "LPT001" = some pX :=
  claim_C7_update_stock_zero [("LPT001", pX)] "LPT001" pX (by decide) (by decide)

/-- Claim C8: no exception escapes the `InventoryManager` boundary: for
every store and every input, each of the six operations returns
normally (`Except.ok`) with its boolean-like or optional result — every
`ValueError` the `Product` layer raises is caught inside the manager
and converted to a `false` return. -/
theorem claim_C8_no_raise (s : Store) (p : Product) (id : String)
    (n d : Option String) (pr : Option ℚ) (delta : ℤ) :
    add_productE s p = Except.ok (add_product s p) ∧
    remove_productE s id = Except.ok (remove_product s id) ∧
    get_productE s id = Except.ok (get_product s id, s) ∧
    update_product_detailsE s id n d pr =
      Except.ok (update_product_details s id n d pr) ∧
    update_stockE s id delta = Except.ok (update_stock s id delta) ∧
    list_all_productsE s = Except.ok (list_all_products s) := by
  refine ⟨rfl, rfl, rfl, ?_, ?_, rfl⟩
  · cases hg : get_product s id with
    | none => simp [update_product_detailsE, update_product_details, hg]
    | some q =>
        rcases hu : update_details q n d pr with ⟨p', err⟩
        cases err with
        | none => simp [update_product_detailsE, update_product_details, hg, hu]
        | some e =>
            cases e with
            | valueError m =>
                simp [update_product_detailsE, update_product_details, hg, hu]
  · cases hg : get_product s id with
    | none => simp [update_stockE, update_stock, hg]
    | some q =>
        cases hu : update_quantity q delta with
        | ok p' => simp [update_stockE, update_stock, hg, hu]
        | error e =>
            cases e with
            | valueError m => simp [update_stockE, update_stock, hg, hu]

/-- Claim C9: `list_all_products` is a pure read: it leaves the store's
mapping exactly unchanged, and a second call with no intervening
mutation yields the same list of entries. -/
theorem claim_C9_list_pure (s : Store) :
    (list_all_products s).2 = s ∧
    (list_all_products ((list_all_products s).2)).1 = (list_all_products s).1 :=
  ⟨rfl, rfl⟩

/-- Claim C10: `update_product_details` with all three optional fields
absent succeeds on a present id, returning `true`, and the stored
product keeps all of its fields. -/
theorem claim_C10_update_details_noop (s : Store) (id : String) (p : Product)
    (h : get_product s id = some p) :
    (update_product_details s id none none none).1 = true ∧
    get_product (update_product_details s id none none none).2 id = some p := by
  have hupd : update_details p none none none = (p, none) := rfl
  have hsome : (lookupStore s id).isSome := by
    rw [show lookupStore s id = some p from h]; rfl
  have hres : update_product_details s id none none none = (true, setStore s id p) := by
    simp [update_product_details, h, hupd]
  rw [hres]
  exact ⟨rfl, lookupStore_setStore_self _ hsome⟩

/-- Concrete instance of C10: an all-absent detail update on `pX`
succeeds and `pX` is unchanged. -/
theorem claim_C10_update_details_noop_witness :
    (update_product_details [("LPT001", pX)] "LPT001" none none none).1 = true ∧
    get_product (update_product_details [("LPT001", pX)] "LPT001" none none none).2
      "LPT001" = some pX :=
  claim_C10_update_details_noop [("LPT001", pX)] "LPT001" pX (by decide)
